import Mathlib

/-
Shallow embedding of the timed actuation state machine of
esp-adk-garage-remote (src/main/App.c).

The mutable global `accessoryConfiguration.state` is modelled as an explicit
`AccessoryState` value threaded through the operations.  Each operation
returns, besides its result and the updated state, the ordered list of
externally observable side effects it performs (GPIO writes, key-value-store
writes, event raising, run-loop callback scheduling, hardware-timer calls),
so that claims about effect ordering and effect counts can be stated.

Numeric constants that App.c takes from its external headers:
the HomeKit ADK (HAP.h / HAPCharacteristicTypes.h) fixes
  kHAPError_None = 0, kHAPError_Unknown = 1,
  kHAPCharacteristicValue_TargetDoorState_Open = 0, _Closed = 1,
  kHAPCharacteristicValue_CurrentDoorState_Open = 0, _Closed = 1,
    _Opening = 2, _Closing = 3, _Stopped = 4
(all the HAP enums are uint8_t-backed), and ESP-IDF fixes
  TIMER_BASE_CLK = APB_CLK_FREQ = 80000000 on the ESP32.
-/

namespace GarageRemote

/-- HAP error code kHAPError_None (HAP.h). -/
def kHAPError_None : Nat := 0

/-- HAP error code kHAPError_Unknown (HAP.h). -/
def kHAPError_Unknown : Nat := 1

/-- HomeKit Target Door State value Open (= 0). -/
def kHAPCharacteristicValue_TargetDoorState_Open : Nat := 0

/-- HomeKit Target Door State value Closed (= 1). -/
def kHAPCharacteristicValue_TargetDoorState_Closed : Nat := 1

/-- HomeKit Current Door State value Open (= 0). -/
def kHAPCharacteristicValue_CurrentDoorState_Open : Nat := 0

/-- HomeKit Current Door State value Closed (= 1). -/
def kHAPCharacteristicValue_CurrentDoorState_Closed : Nat := 1

/-- GPIO pin driven by the app (App.c line 53). -/
def kLedGPIOPin : Nat := 19

/-- Key-value-store domain for the app state record (App.c line 43). -/
def kAppKeyValueStoreDomain_Configuration : Nat := 0

/-- Key-value-store key for the app state record (App.c line 50). -/
def kAppKeyValueStoreKey_Configuration_State : Nat := 0

/-- The persisted state record: `accessoryConfiguration.state` in App.c
(two uint8_t fields and a bool, in declaration order). -/
structure AccessoryState where
  currentDoorState : Nat
  targetDoorState : Nat
  obstructionDetected : Bool
deriving DecidableEq, Repr

/-- `sizeof accessoryConfiguration.state` in App.c: two uint8_t plus one
bool.  The claims only compare a stored record size against this constant
for equality, never use its numeric value. -/
def sizeof_accessory_state : Nat := 3

/-- The characteristics the app raises events for. -/
inductive Characteristic where
  | targetDoorState
  | currentDoorState
deriving DecidableEq, Repr

/-- One externally observable side effect of an operation, in the order the
C code performs them. -/
inductive Effect where
  /-- gpio_set_level(pin, level) -/
  | gpioSetLevel (pin : Nat) (level : Bool)
  /-- HAPPlatformKeyValueStoreSet(store, domain, key, record, sizeof record),
  i.e. the body of SaveAccessoryState -/
  | kvsSet (domain : Nat) (key : Nat) (record : AccessoryState)
  /-- HAPAccessoryServerRaiseEvent called directly -/
  | raiseEvent (characteristic : Characteristic)
  /-- ScheduleAccessoryNotificationInRunLoop: the event raise is marshalled
  onto the run loop via HAPPlatformRunLoopScheduleCallback -/
  | scheduleNotification (characteristic : Characteristic)
  /-- timer_init(TIMER_GROUP_0, TIMER_0, config) -/
  | timerInit
  /-- timer_set_counter_value(TIMER_GROUP_0, TIMER_0, v) -/
  | timerSetCounter (v : Nat)
  /-- timer_set_alarm_value(TIMER_GROUP_0, TIMER_0, ticks) -/
  | timerSetAlarm (ticks : Nat)
  /-- timer_enable_intr(TIMER_GROUP_0, TIMER_0) -/
  | timerEnableIntr
  /-- timer_isr_callback_add(TIMER_GROUP_0, TIMER_0, isr, NULL, 0) -/
  | timerCallbackAdd
  /-- timer_start(TIMER_GROUP_0, TIMER_0) -/
  | timerStart
  /-- timer_pause(TIMER_GROUP_0, TIMER_0) -/
  | timerPause
deriving DecidableEq, Repr

/-- Is the effect a GPIO driver command? -/
def isGpioEff : Effect → Bool
  | .gpioSetLevel _ _ => true
  | _ => false

/-- Is the effect a persistence write? -/
def isSaveEff : Effect → Bool
  | .kvsSet _ _ _ => true
  | _ => false

/-- Is the effect a change notification (raised directly or scheduled onto
the run loop)? -/
def isNotifyEff : Effect → Bool
  | .raiseEvent _ => true
  | .scheduleNotification _ => true
  | _ => false

/-- Is the effect a hardware-timer call? -/
def isTimerEff : Effect → Bool
  | .timerInit => true
  | .timerSetCounter _ => true
  | .timerSetAlarm _ => true
  | .timerEnableIntr => true
  | .timerCallbackAdd => true
  | .timerStart => true
  | .timerPause => true
  | _ => false

/-- `effBefore p q tr = true` iff some effect satisfying `p` occurs strictly
before some effect satisfying `q` in the trace `tr`. -/
def effBefore (p q : Effect → Bool) : List Effect → Bool
  | [] => false
  | e :: rest => (p e && rest.any q) || effBefore p q rest

/-- Outcome of HAPPlatformKeyValueStoreGet for the state record:
the store returned an error code other than kHAPError_None, or it succeeded
with found = false, or it succeeded with found = true having copied
`numBytes` bytes of the stored `record` into the state buffer. -/
inductive KVSGetOutcome where
  | failure (err : Nat)
  | notFound
  | found (record : AccessoryState) (numBytes : Nat)
deriving DecidableEq, Repr

/-- Result of running LoadAccessoryState: either the process halts via
HAPAssert/HAPFatalError, or startup continues with the resulting state. -/
inductive LoadResult where
  | fatal
  | ok (state : AccessoryState)
deriving DecidableEq, Repr

/-- HAPRawBufferZero over the state record: all fields zero. -/
def zeroedState : AccessoryState :=
  { currentDoorState := 0, targetDoorState := 0, obstructionDetected := false }

/-- LoadAccessoryState (App.c lines 75-106).  On a store error the process
halts.  If the record is absent or its size mismatches, the state is
zero-filled (logging when found).  Otherwise — record found with the
expected size — the code overwrites targetDoorState and currentDoorState
with the Closed constants, keeping only obstructionDetected from the
loaded record. -/
def LoadAccessoryState : KVSGetOutcome → LoadResult
  | .failure _ => .fatal
  | .notFound => .ok zeroedState
  | .found record numBytes =>
      if numBytes ≠ sizeof_accessory_state then
        .ok zeroedState
      else
        .ok { record with
              targetDoorState := kHAPCharacteristicValue_TargetDoorState_Closed,
              currentDoorState := kHAPCharacteristicValue_CurrentDoorState_Closed }

/-- Result of running SaveAccessoryState: halt or continue. -/
inductive SaveResult where
  | fatal
  | ok
deriving DecidableEq, Repr

/-- SaveAccessoryState error handling (App.c lines 111-125): any error code
other than kHAPError_None from HAPPlatformKeyValueStoreSet halts the
process. -/
def SaveAccessoryStateOutcome (err : Nat) : SaveResult :=
  if err ≠ kHAPError_None then .fatal else .ok

/-- AppCreate (App.c lines 188-198): zero the configuration, install the
server and store references, then run LoadAccessoryState.  Its effect on the
state record is exactly that of LoadAccessoryState. -/
def AppCreate (r : KVSGetOutcome) : LoadResult :=
  LoadAccessoryState r

/-- HandleGarageDoorOpenerCurrentDoorStateRead (App.c lines 297-323):
writes currentDoorState into the out-parameter, returns kHAPError_None. -/
def HandleGarageDoorOpenerCurrentDoorStateRead (s : AccessoryState) : Nat × Nat :=
  (kHAPError_None, s.currentDoorState)

/-- HandleGarageDoorOpenerTargetDoorStateRead (App.c lines 328-345):
writes targetDoorState into the out-parameter, returns kHAPError_None. -/
def HandleGarageDoorOpenerTargetDoorStateRead (s : AccessoryState) : Nat × Nat :=
  (kHAPError_None, s.targetDoorState)

/-- Hardware timer clock divider (App.c line 243). -/
def TIMER_DIVIDER : Nat := 16

/-- ESP32 APB clock frequency, the timer base clock (ESP-IDF). -/
def TIMER_BASE_CLK : Nat := 80000000

/-- TIMER_SCALE = TIMER_BASE_CLK / TIMER_DIVIDER: timer ticks per second
(App.c line 244). -/
def TIMER_SCALE : Nat := TIMER_BASE_CLK / TIMER_DIVIDER

/-- Number of values of a uint64_t; C uint64 arithmetic is modulo this. -/
def UINT64_CARD : Nat := 2 ^ 64

/-- The alarm threshold computed by set_timer (App.c line 268):
`timer_duration_in_ms / 1000 * TIMER_SCALE` in C uint64 arithmetic, i.e.
truncating division by 1000 and a product reduced modulo 2^64. -/
def set_timer_alarm_value (timer_duration_in_ms : Nat) : Nat :=
  timer_duration_in_ms / 1000 * TIMER_SCALE % UINT64_CARD

/-- set_timer (App.c lines 246-280): the ordered hardware-timer calls it
performs (config init, counter reset to 0, alarm threshold, interrupt
enable, ISR callback registration, start). -/
def set_timer (timer_duration_in_ms : Nat) : List Effect :=
  [ Effect.timerInit,
    Effect.timerSetCounter 0,
    Effect.timerSetAlarm (set_timer_alarm_value timer_duration_in_ms),
    Effect.timerEnableIntr,
    Effect.timerCallbackAdd,
    Effect.timerStart ]

/-- HandleGarageDoorOpenerTargetDoorStateWrite (App.c lines 350-388).
`value` is the uint8 written by the controller; the cast to the
uint8_t-backed HAPCharacteristicValue_TargetDoorState enum preserves it.
If it differs from the stored target, both door-state fields are set to it,
the record is saved, two events are raised directly (the request
characteristic, i.e. target door state, then current door state), and then
the switch on the value: Open drives the GPIO high and arms the 5000 ms
timer, Closed drives the GPIO low, any other value does nothing.
Returns (error code, new state, effect trace). -/
def HandleGarageDoorOpenerTargetDoorStateWrite (s : AccessoryState) (value : Nat) :
    Nat × AccessoryState × List Effect :=
  if s.targetDoorState ≠ value then
    let s2 : AccessoryState :=
      { s with targetDoorState := value, currentDoorState := value }
    let branchEffects : List Effect :=
      if value = kHAPCharacteristicValue_TargetDoorState_Open then
        Effect.gpioSetLevel kLedGPIOPin true :: set_timer 5000
      else if value = kHAPCharacteristicValue_TargetDoorState_Closed then
        [Effect.gpioSetLevel kLedGPIOPin false]
      else
        []
    (kHAPError_None, s2,
      Effect.kvsSet kAppKeyValueStoreDomain_Configuration
          kAppKeyValueStoreKey_Configuration_State s2
        :: Effect.raiseEvent Characteristic.targetDoorState
        :: Effect.raiseEvent Characteristic.currentDoorState
        :: branchEffects)
  else
    (kHAPError_None, s, [])

/-- The effect trace of a target-door-state write. -/
def writeTrace (s : AccessoryState) (value : Nat) : List Effect :=
  (HandleGarageDoorOpenerTargetDoorStateWrite s value).2.2

/-- One woken iteration of the auto-revert worker switch_off_handler
(App.c lines 219-236), after ulTaskNotifyTake returns: pause the timer;
if the target is Open, set target and current to Closed, save, drive the
GPIO low, and schedule the two change notifications onto the run loop;
otherwise do nothing further. -/
def switch_off_iteration (s : AccessoryState) : AccessoryState × List Effect :=
  if s.targetDoorState = kHAPCharacteristicValue_TargetDoorState_Open then
    let s2 : AccessoryState :=
      { s with targetDoorState := kHAPCharacteristicValue_TargetDoorState_Closed,
               currentDoorState := kHAPCharacteristicValue_CurrentDoorState_Closed }
    (s2,
      [ Effect.timerPause,
        Effect.kvsSet kAppKeyValueStoreDomain_Configuration
          kAppKeyValueStoreKey_Configuration_State s2,
        Effect.gpioSetLevel kLedGPIOPin false,
        Effect.scheduleNotification Characteristic.targetDoorState,
        Effect.scheduleNotification Characteristic.currentDoorState ])
  else
    (s, [Effect.timerPause])

end GarageRemote

namespace GarageRemote

/-- Claim C1 fails on the code: at startup with no stored record (and
likewise with a size-mismatched record), LoadAccessoryState zero-fills the
state, and under the HomeKit encoding the zero value is Open, not Closed;
both read handlers then return Open.  This theorem evaluates the load at
both failing inputs. -/
theorem C1_startup_default_is_open_not_closed :
    AppCreate KVSGetOutcome.notFound = LoadResult.ok zeroedState ∧
    LoadAccessoryState (KVSGetOutcome.found (AccessoryState.mk 1 1 false) 2) =
      LoadResult.ok zeroedState ∧
    HandleGarageDoorOpenerTargetDoorStateRead zeroedState =
      (kHAPError_None, kHAPCharacteristicValue_TargetDoorState_Open) ∧
    HandleGarageDoorOpenerCurrentDoorStateRead zeroedState =
      (kHAPError_None, kHAPCharacteristicValue_CurrentDoorState_Open) ∧
    zeroedState.targetDoorState ≠ kHAPCharacteristicValue_TargetDoorState_Closed ∧
    zeroedState.currentDoorState ≠ kHAPCharacteristicValue_CurrentDoorState_Closed := by
  decide

/-- Claim C2 fails on the code: a write of Open from the Closed rest state
persists the record (0, 0, false) (both door fields Open), but
LoadAccessoryState, given exactly that record back with the expected size,
overwrites both door fields with Closed instead of keeping the persisted
values. -/
theorem C2_load_overwrites_persisted_values :
    (writeTrace (AccessoryState.mk 1 1 false) kHAPCharacteristicValue_TargetDoorState_Open).head? =
      some (Effect.kvsSet kAppKeyValueStoreDomain_Configuration
        kAppKeyValueStoreKey_Configuration_State (AccessoryState.mk 0 0 false)) ∧
    LoadAccessoryState
        (KVSGetOutcome.found (AccessoryState.mk 0 0 false) sizeof_accessory_state) =
      LoadResult.ok (AccessoryState.mk 1 1 false) ∧
    LoadAccessoryState
        (KVSGetOutcome.found (AccessoryState.mk 0 0 false) sizeof_accessory_state) ≠
      LoadResult.ok (AccessoryState.mk 0 0 false) := by
  decide

/-- Claim C3 fails on the code at a concrete input: writing Open while the
target is Closed produces a trace that contains both a GPIO driver command
and a persistence write, yet no driver command occurs before the
persistence write — the code saves first and drives the GPIO after the
notifications. -/
theorem C3_counterexample_driver_not_first :
    (writeTrace (AccessoryState.mk 1 1 false) kHAPCharacteristicValue_TargetDoorState_Open).any
        isGpioEff = true ∧
    (writeTrace (AccessoryState.mk 1 1 false) kHAPCharacteristicValue_TargetDoorState_Open).any
        isSaveEff = true ∧
    effBefore isGpioEff isSaveEff
        (writeTrace (AccessoryState.mk 1 1 false) kHAPCharacteristicValue_TargetDoorState_Open) =
      false := by
  decide

/-- Claim C4 fails on the code at a concrete input: writing Closed while
the target is Open (a pending auto-revert timer situation) performs no
hardware-timer call at all — in particular no cancel/pause. -/
theorem C4_counterexample_no_timer_cancel :
    (AccessoryState.mk 0 0 false).targetDoorState ≠
      kHAPCharacteristicValue_TargetDoorState_Closed ∧
    (writeTrace (AccessoryState.mk 0 0 false) kHAPCharacteristicValue_TargetDoorState_Closed).any
        isTimerEff = false := by
  decide

/-- Claim C10 fails on the code at a concrete input: the alarm threshold is
computed in C uint64 arithmetic, so for a duration whose tick product
reaches 2^64 the stored threshold is the product reduced modulo 2^64, not
the mathematical product (d / 1000) * TIMER_SCALE. -/
theorem C10_counterexample_uint64_wrap :
    set_timer_alarm_value (2 ^ 63) ≠ 2 ^ 63 / 1000 * TIMER_SCALE := by
  decide

end GarageRemote

namespace GarageRemote

/-- Claim C3 amended: in every run of the write handler with a new target
different from the current target, the persistence write comes first, then
the two change notifications (raised directly by the handler, which runs on
the run-loop context), then any driver command, then any timer call; in
particular the persistence write completes before any notification, and no
driver or timer action precedes either. -/
theorem C3_amended_effect_order (s : AccessoryState) (v : Nat)
    (h : s.targetDoorState ≠ v) :
    (writeTrace s v).countP isSaveEff = 1 ∧
    (writeTrace s v).countP isNotifyEff = 2 ∧
    effBefore isNotifyEff isSaveEff (writeTrace s v) = false ∧
    effBefore isGpioEff isSaveEff (writeTrace s v) = false ∧
    effBefore isGpioEff isNotifyEff (writeTrace s v) = false ∧
    effBefore isTimerEff isSaveEff (writeTrace s v) = false ∧
    effBefore isTimerEff isNotifyEff (writeTrace s v) = false ∧
    effBefore isTimerEff isGpioEff (writeTrace s v) = false := by
  by_cases h0 : v = 0
  · subst h0
    simp [writeTrace, HandleGarageDoorOpenerTargetDoorStateWrite, h,
      kHAPCharacteristicValue_TargetDoorState_Open,
      kHAPCharacteristicValue_TargetDoorState_Closed, set_timer,
      effBefore, isSaveEff, isNotifyEff, isGpioEff, isTimerEff,
      List.countP_cons, List.countP_nil, List.any_cons, List.any_nil]
  · by_cases h1 : v = 1
    · subst h1
      simp [writeTrace, HandleGarageDoorOpenerTargetDoorStateWrite, h,
        kHAPCharacteristicValue_TargetDoorState_Open,
        kHAPCharacteristicValue_TargetDoorState_Closed, set_timer,
        effBefore, isSaveEff, isNotifyEff, isGpioEff, isTimerEff,
        List.countP_cons, List.countP_nil, List.any_cons, List.any_nil]
    · simp [writeTrace, HandleGarageDoorOpenerTargetDoorStateWrite, h, h0, h1,
        kHAPCharacteristicValue_TargetDoorState_Open,
        kHAPCharacteristicValue_TargetDoorState_Closed, set_timer,
        effBefore, isSaveEff, isNotifyEff, isGpioEff, isTimerEff,
        List.countP_cons, List.countP_nil, List.any_cons, List.any_nil]

/-- Witness for C3_amended_effect_order at the concrete input: target
Closed, write Open. -/
theorem C3_amended_effect_order_witness :
    (writeTrace (AccessoryState.mk 1 1 false)
        kHAPCharacteristicValue_TargetDoorState_Open).countP isSaveEff = 1 ∧
    (writeTrace (AccessoryState.mk 1 1 false)
        kHAPCharacteristicValue_TargetDoorState_Open).countP isNotifyEff = 2 ∧
    effBefore isNotifyEff isSaveEff
      (writeTrace (AccessoryState.mk 1 1 false)
        kHAPCharacteristicValue_TargetDoorState_Open) = false ∧
    effBefore isGpioEff isSaveEff
      (writeTrace (AccessoryState.mk 1 1 false)
        kHAPCharacteristicValue_TargetDoorState_Open) = false ∧
    effBefore isGpioEff isNotifyEff
      (writeTrace (AccessoryState.mk 1 1 false)
        kHAPCharacteristicValue_TargetDoorState_Open) = false ∧
    effBefore isTimerEff isSaveEff
      (writeTrace (AccessoryState.mk 1 1 false)
        kHAPCharacteristicValue_TargetDoorState_Open) = false ∧
    effBefore isTimerEff isNotifyEff
      (writeTrace (AccessoryState.mk 1 1 false)
        kHAPCharacteristicValue_TargetDoorState_Open) = false ∧
    effBefore isTimerEff isGpioEff
      (writeTrace (AccessoryState.mk 1 1 false)
        kHAPCharacteristicValue_TargetDoorState_Open) = false :=
  C3_amended_effect_order (AccessoryState.mk 1 1 false)
    kHAPCharacteristicValue_TargetDoorState_Open (by decide)

/-- Claim C4 amended: a write of Closed while the target is not Closed
performs no hardware-timer action at all (no cancel/pause); an outstanding
timer for a previous Open request may therefore still fire, but the stale
expiry is neutralized by the auto-revert guard: run after this write, the
worker iteration only pauses the timer and leaves the state unchanged. -/
theorem C4_amended_no_cancel_but_guarded (s : AccessoryState)
    (h : s.targetDoorState ≠ kHAPCharacteristicValue_TargetDoorState_Closed) :
    (writeTrace s kHAPCharacteristicValue_TargetDoorState_Closed).any isTimerEff = false ∧
    switch_off_iteration
        (HandleGarageDoorOpenerTargetDoorStateWrite s
          kHAPCharacteristicValue_TargetDoorState_Closed).2.1 =
      ((HandleGarageDoorOpenerTargetDoorStateWrite s
          kHAPCharacteristicValue_TargetDoorState_Closed).2.1,
        [Effect.timerPause]) := by
  have h1 : s.targetDoorState ≠ 1 := h
  constructor
  · simp [writeTrace, HandleGarageDoorOpenerTargetDoorStateWrite, h1,
      isTimerEff, List.any_cons, List.any_nil,
      kHAPCharacteristicValue_TargetDoorState_Open,
      kHAPCharacteristicValue_TargetDoorState_Closed]
  · simp [HandleGarageDoorOpenerTargetDoorStateWrite, h1, switch_off_iteration,
      kHAPCharacteristicValue_TargetDoorState_Open,
      kHAPCharacteristicValue_TargetDoorState_Closed]

/-- Witness for C4_amended_no_cancel_but_guarded at the concrete input:
target Open, write Closed. -/
theorem C4_amended_no_cancel_but_guarded_witness :
    (writeTrace (AccessoryState.mk 0 0 false)
        kHAPCharacteristicValue_TargetDoorState_Closed).any isTimerEff = false ∧
    switch_off_iteration
        (HandleGarageDoorOpenerTargetDoorStateWrite (AccessoryState.mk 0 0 false)
          kHAPCharacteristicValue_TargetDoorState_Closed).2.1 =
      ((HandleGarageDoorOpenerTargetDoorStateWrite (AccessoryState.mk 0 0 false)
          kHAPCharacteristicValue_TargetDoorState_Closed).2.1,
        [Effect.timerPause]) :=
  C4_amended_no_cancel_but_guarded (AccessoryState.mk 0 0 false) (by decide)

/-- Claim C5: a write whose value equals the stored target is a complete
no-op (same state, empty effect trace, result kHAPError_None), and a second
write of the same value immediately after a first one is always such a
no-op, so two writes in a row persist the same state as one and notify only
on the first. -/
theorem C5_write_idempotent (s : AccessoryState) (v : Nat) :
    (s.targetDoorState = v →
      HandleGarageDoorOpenerTargetDoorStateWrite s v = (kHAPError_None, s, [])) ∧
    HandleGarageDoorOpenerTargetDoorStateWrite
        (HandleGarageDoorOpenerTargetDoorStateWrite s v).2.1 v =
      (kHAPError_None, (HandleGarageDoorOpenerTargetDoorStateWrite s v).2.1, []) := by
  constructor
  · intro h
    simp [HandleGarageDoorOpenerTargetDoorStateWrite, h]
  · by_cases h : s.targetDoorState = v
    · simp [HandleGarageDoorOpenerTargetDoorStateWrite, h]
    · simp [HandleGarageDoorOpenerTargetDoorStateWrite, h]

/-- Witness for C5_write_idempotent: writing Closed while already Closed. -/
theorem C5_write_idempotent_witness :
    HandleGarageDoorOpenerTargetDoorStateWrite (AccessoryState.mk 1 1 false)
        kHAPCharacteristicValue_TargetDoorState_Closed =
      (kHAPError_None, AccessoryState.mk 1 1 false, []) ∧
    HandleGarageDoorOpenerTargetDoorStateWrite
        (HandleGarageDoorOpenerTargetDoorStateWrite (AccessoryState.mk 1 1 false)
          kHAPCharacteristicValue_TargetDoorState_Closed).2.1
        kHAPCharacteristicValue_TargetDoorState_Closed =
      (kHAPError_None,
        (HandleGarageDoorOpenerTargetDoorStateWrite (AccessoryState.mk 1 1 false)
          kHAPCharacteristicValue_TargetDoorState_Closed).2.1, []) :=
  ⟨(C5_write_idempotent (AccessoryState.mk 1 1 false)
      kHAPCharacteristicValue_TargetDoorState_Closed).1 rfl,
   (C5_write_idempotent (AccessoryState.mk 1 1 false)
      kHAPCharacteristicValue_TargetDoorState_Closed).2⟩

end GarageRemote

namespace GarageRemote

/-- Claim C6: when the woken auto-revert worker finds targetDoorState =
Open, it sets target and current to Closed, performs exactly one
persistence write, exactly one GPIO command — driving the pin to the rest
level false — and schedules exactly two change notifications onto the run
loop, one for the target state and one for the current state. -/
theorem C6_auto_revert_open (s : AccessoryState)
    (h : s.targetDoorState = kHAPCharacteristicValue_TargetDoorState_Open) :
    ((switch_off_iteration s).1).targetDoorState =
      kHAPCharacteristicValue_TargetDoorState_Closed ∧
    ((switch_off_iteration s).1).currentDoorState =
      kHAPCharacteristicValue_CurrentDoorState_Closed ∧
    ((switch_off_iteration s).2).countP isSaveEff = 1 ∧
    ((switch_off_iteration s).2).countP isGpioEff = 1 ∧
    Effect.gpioSetLevel kLedGPIOPin false ∈ (switch_off_iteration s).2 ∧
    ((switch_off_iteration s).2).countP isNotifyEff = 2 ∧
    ((switch_off_iteration s).2).countP
        (fun e => e == Effect.scheduleNotification Characteristic.targetDoorState) = 1 ∧
    ((switch_off_iteration s).2).countP
        (fun e => e == Effect.scheduleNotification Characteristic.currentDoorState) = 1 := by
  simp [switch_off_iteration, h, isSaveEff, isGpioEff, isNotifyEff,
    List.countP_cons, List.countP_nil,
    kHAPCharacteristicValue_TargetDoorState_Open,
    kHAPCharacteristicValue_TargetDoorState_Closed,
    kHAPCharacteristicValue_CurrentDoorState_Closed]

/-- Witness for C6_auto_revert_open at the concrete state (Open, Open). -/
theorem C6_auto_revert_open_witness :
    ((switch_off_iteration (AccessoryState.mk 0 0 false)).1).targetDoorState =
      kHAPCharacteristicValue_TargetDoorState_Closed ∧
    ((switch_off_iteration (AccessoryState.mk 0 0 false)).1).currentDoorState =
      kHAPCharacteristicValue_CurrentDoorState_Closed ∧
    ((switch_off_iteration (AccessoryState.mk 0 0 false)).2).countP isSaveEff = 1 ∧
    ((switch_off_iteration (AccessoryState.mk 0 0 false)).2).countP isGpioEff = 1 ∧
    Effect.gpioSetLevel kLedGPIOPin false ∈
      (switch_off_iteration (AccessoryState.mk 0 0 false)).2 ∧
    ((switch_off_iteration (AccessoryState.mk 0 0 false)).2).countP isNotifyEff = 2 ∧
    ((switch_off_iteration (AccessoryState.mk 0 0 false)).2).countP
        (fun e => e == Effect.scheduleNotification Characteristic.targetDoorState) = 1 ∧
    ((switch_off_iteration (AccessoryState.mk 0 0 false)).2).countP
        (fun e => e == Effect.scheduleNotification Characteristic.currentDoorState) = 1 :=
  C6_auto_revert_open (AccessoryState.mk 0 0 false) rfl

/-- Claim C7: when the woken auto-revert worker finds targetDoorState
already Closed (a stale expiry after a manual revert), it only pauses the
timer: the state record is unchanged and the trace contains zero GPIO
commands, zero persistence writes and zero notifications. -/
theorem C7_stale_expiry_noop (s : AccessoryState)
    (h : s.targetDoorState = kHAPCharacteristicValue_TargetDoorState_Closed) :
    switch_off_iteration s = (s, [Effect.timerPause]) ∧
    ((switch_off_iteration s).2).countP isGpioEff = 0 ∧
    ((switch_off_iteration s).2).countP isSaveEff = 0 ∧
    ((switch_off_iteration s).2).countP isNotifyEff = 0 := by
  have h0 : s.targetDoorState ≠ 0 := by
    rw [h]; decide
  simp [switch_off_iteration, h0, isSaveEff, isGpioEff, isNotifyEff,
    List.countP_cons, List.countP_nil,
    kHAPCharacteristicValue_TargetDoorState_Open]

/-- Witness for C7_stale_expiry_noop at the concrete state (Closed, Closed). -/
theorem C7_stale_expiry_noop_witness :
    switch_off_iteration (AccessoryState.mk 1 1 false) =
      (AccessoryState.mk 1 1 false, [Effect.timerPause]) ∧
    ((switch_off_iteration (AccessoryState.mk 1 1 false)).2).countP isGpioEff = 0 ∧
    ((switch_off_iteration (AccessoryState.mk 1 1 false)).2).countP isSaveEff = 0 ∧
    ((switch_off_iteration (AccessoryState.mk 1 1 false)).2).countP isNotifyEff = 0 :=
  C7_stale_expiry_noop (AccessoryState.mk 1 1 false) rfl

/-- Claim C8: every store error other than kHAPError_None is fatal on load
and on save — the process halts and no operation continues — while a
not-found result on load is not fatal. -/
theorem C8_persistence_failure_fatal (err : Nat) (h : err ≠ kHAPError_None) :
    LoadAccessoryState (KVSGetOutcome.failure err) = LoadResult.fatal ∧
    SaveAccessoryStateOutcome err = SaveResult.fatal ∧
    LoadAccessoryState KVSGetOutcome.notFound ≠ LoadResult.fatal := by
  refine ⟨rfl, ?_, by decide⟩
  simp [SaveAccessoryStateOutcome, h]

/-- Witness for C8_persistence_failure_fatal at err = kHAPError_Unknown. -/
theorem C8_persistence_failure_fatal_witness :
    LoadAccessoryState (KVSGetOutcome.failure kHAPError_Unknown) = LoadResult.fatal ∧
    SaveAccessoryStateOutcome kHAPError_Unknown = SaveResult.fatal ∧
    LoadAccessoryState KVSGetOutcome.notFound ≠ LoadResult.fatal :=
  C8_persistence_failure_fatal kHAPError_Unknown (by decide)

/-- Claim C9: for every uint8 value v — including values outside the valid
target enumeration — the write handler returns kHAPError_None; when v
differs from the stored target it stores v verbatim into both door-state
fields, performs exactly one persistence write and raises exactly two
events, and when v is neither Open (0) nor Closed (1) it performs no GPIO
and no timer action. -/
theorem C9_write_accepts_any_uint8 (s : AccessoryState) (v : Nat) (hv : v < 256) :
    (HandleGarageDoorOpenerTargetDoorStateWrite s v).1 = kHAPError_None ∧
    (s.targetDoorState ≠ v →
      ((HandleGarageDoorOpenerTargetDoorStateWrite s v).2.1 =
          { s with targetDoorState := v, currentDoorState := v } ∧
        (writeTrace s v).countP isSaveEff = 1 ∧
        (writeTrace s v).countP isNotifyEff = 2 ∧
        (v ≠ kHAPCharacteristicValue_TargetDoorState_Open →
          v ≠ kHAPCharacteristicValue_TargetDoorState_Closed →
            (writeTrace s v).any isGpioEff = false ∧
            (writeTrace s v).any isTimerEff = false))) := by
  constructor
  · by_cases h : s.targetDoorState = v
    · simp [HandleGarageDoorOpenerTargetDoorStateWrite, h]
    · simp [HandleGarageDoorOpenerTargetDoorStateWrite, h]
  · intro h
    refine ⟨?_, ?_, ?_, ?_⟩
    · simp [HandleGarageDoorOpenerTargetDoorStateWrite, h]
    · by_cases h0 : v = 0
      · subst h0
        simp [writeTrace, HandleGarageDoorOpenerTargetDoorStateWrite, h, set_timer,
          isSaveEff, List.countP_cons, List.countP_nil,
          kHAPCharacteristicValue_TargetDoorState_Open,
          kHAPCharacteristicValue_TargetDoorState_Closed]
      · by_cases h1 : v = 1
        · subst h1
          simp [writeTrace, HandleGarageDoorOpenerTargetDoorStateWrite, h, set_timer,
            isSaveEff, List.countP_cons, List.countP_nil,
            kHAPCharacteristicValue_TargetDoorState_Open,
            kHAPCharacteristicValue_TargetDoorState_Closed]
        · simp [writeTrace, HandleGarageDoorOpenerTargetDoorStateWrite, h, h0, h1,
            isSaveEff, List.countP_cons, List.countP_nil,
            kHAPCharacteristicValue_TargetDoorState_Open,
            kHAPCharacteristicValue_TargetDoorState_Closed]
    · by_cases h0 : v = 0
      · subst h0
        simp [writeTrace, HandleGarageDoorOpenerTargetDoorStateWrite, h, set_timer,
          isNotifyEff, List.countP_cons, List.countP_nil,
          kHAPCharacteristicValue_TargetDoorState_Open,
          kHAPCharacteristicValue_TargetDoorState_Closed]
      · by_cases h1 : v = 1
        · subst h1
          simp [writeTrace, HandleGarageDoorOpenerTargetDoorStateWrite, h, set_timer,
            isNotifyEff, List.countP_cons, List.countP_nil,
            kHAPCharacteristicValue_TargetDoorState_Open,
            kHAPCharacteristicValue_TargetDoorState_Closed]
        · simp [writeTrace, HandleGarageDoorOpenerTargetDoorStateWrite, h, h0, h1,
            isNotifyEff, List.countP_cons, List.countP_nil,
            kHAPCharacteristicValue_TargetDoorState_Open,
            kHAPCharacteristicValue_TargetDoorState_Closed]
    · intro h0 h1
      have h2 : v ≠ 0 := h0
      have h3 : v ≠ 1 := h1
      simp [writeTrace, HandleGarageDoorOpenerTargetDoorStateWrite, h, h2, h3,
        isGpioEff, isTimerEff, List.any_cons, List.any_nil,
        kHAPCharacteristicValue_TargetDoorState_Open,
        kHAPCharacteristicValue_TargetDoorState_Closed]

/-- Witness for C9_write_accepts_any_uint8 at the out-of-range value 2
written over the Closed rest state. -/
theorem C9_write_accepts_any_uint8_witness :
    (HandleGarageDoorOpenerTargetDoorStateWrite (AccessoryState.mk 1 1 false) 2).1 =
      kHAPError_None ∧
    (HandleGarageDoorOpenerTargetDoorStateWrite (AccessoryState.mk 1 1 false) 2).2.1 =
      AccessoryState.mk 2 2 false ∧
    (writeTrace (AccessoryState.mk 1 1 false) 2).countP isSaveEff = 1 ∧
    (writeTrace (AccessoryState.mk 1 1 false) 2).countP isNotifyEff = 2 ∧
    (writeTrace (AccessoryState.mk 1 1 false) 2).any isGpioEff = false ∧
    (writeTrace (AccessoryState.mk 1 1 false) 2).any isTimerEff = false := by
  have h := C9_write_accepts_any_uint8 (AccessoryState.mk 1 1 false) 2 (by decide)
  have h2 := h.2 (by decide)
  exact ⟨h.1, h2.1, h2.2.1, h2.2.2.1,
    (h2.2.2.2 (by decide) (by decide)).1, (h2.2.2.2 (by decide) (by decide)).2⟩

/-- Claim C10 amended: the alarm threshold is (d / 1000) * TIMER_SCALE in
C uint64 arithmetic, i.e. truncating division and a product reduced modulo
2^64; whenever the product is below 2^64 the threshold equals it exactly,
so a duration below 1000 ms yields 0 ticks and the fixed 5000 ms used by
the write handler yields 5 * TIMER_SCALE ticks, i.e. exactly 5 seconds of
timer ticks. -/
theorem C10_amended_alarm_value (d : Nat) (hd : d < 1000) :
    set_timer_alarm_value d = 0 ∧
    set_timer_alarm_value 5000 = 5 * TIMER_SCALE ∧
    Effect.timerSetAlarm (5 * TIMER_SCALE) ∈ set_timer 5000 ∧
    Effect.timerSetAlarm (5 * TIMER_SCALE) ∈
      writeTrace (AccessoryState.mk 1 1 false)
        kHAPCharacteristicValue_TargetDoorState_Open ∧
    (∀ e : Nat, e / 1000 * TIMER_SCALE < UINT64_CARD →
      set_timer_alarm_value e = e / 1000 * TIMER_SCALE) := by
  refine ⟨?_, by decide, by decide, by decide, ?_⟩
  · simp [set_timer_alarm_value, Nat.div_eq_of_lt hd]
  · intro e he
    simp [set_timer_alarm_value, Nat.mod_eq_of_lt he]

/-- Witness for C10_amended_alarm_value at d = 500. -/
theorem C10_amended_alarm_value_witness :
    set_timer_alarm_value 500 = 0 ∧
    set_timer_alarm_value 5000 = 5 * TIMER_SCALE ∧
    Effect.timerSetAlarm (5 * TIMER_SCALE) ∈ set_timer 5000 ∧
    Effect.timerSetAlarm (5 * TIMER_SCALE) ∈
      writeTrace (AccessoryState.mk 1 1 false)
        kHAPCharacteristicValue_TargetDoorState_Open ∧
    (∀ e : Nat, e / 1000 * TIMER_SCALE < UINT64_CARD →
      set_timer_alarm_value e = e / 1000 * TIMER_SCALE) :=
  C10_amended_alarm_value 500 (by decide)

end GarageRemote
